import Mathlib

/-!
Shallow embedding of `src/server.py`, a multi-threaded HTTP server.
Pure per-request logic (parsing, routing, response construction) is
modelled as Lean functions over strings and byte lists; the per-connection
loop is modelled as a function from the sequence of `recv` outcomes to the
sequence of socket operations (sends and the final close).  Library calls
(UTF-8 decoding, JSON parsing, the file system, the clock, the random
generator) are parameters of the model.
-/

namespace Server

/-- Python `s.split(sep, 1)` when the separator occurs: the text before the
first occurrence of `sep` and the text after it; `none` when `sep` does not
occur (in which case Python's 1-split returns the whole string alone and an
unpacking into two variables raises `ValueError`). Char-list level. -/
def splitOnce (sep : List Char) (cs : List Char) : Option (List Char × List Char) :=
  match cs with
  | [] => none
  | c :: rest =>
    if sep.isPrefixOf cs then
      some ([], cs.drop sep.length)
    else
      match splitOnce sep rest with
      | none => none
      | some (a, b) => some (c :: a, b)

/-- Python `s.split(sep, maxsplit)` on char lists: split on `sep` at most
`n` times, left to right; Python keeps empty fields. -/
def pySplit (sep : List Char) : Nat → List Char → List (List Char)
  | 0, cs => [cs]
  | n + 1, cs =>
    match splitOnce sep cs with
    | none => [cs]
    | some (a, b) => a :: pySplit sep n b

/-- Python `s.split(sep)` (no maxsplit): `cs.length` splits always suffice. -/
def pySplitAll (sep cs : List Char) : List (List Char) :=
  pySplit sep cs.length cs

/-- Python `sub in s` (substring containment). -/
def containsSub (sub s : String) : Bool :=
  if sub.data.isEmpty then true else (splitOnce sub.data s.data).isSome

/-- Python `str.lower()` (ASCII case folding suffices for this server). -/
def pyLower (s : String) : String :=
  ⟨s.data.map Char.toLower⟩

/-- Python `s.endswith(sfx)`, at the character level. -/
def pyEndsWith (s sfx : String) : Bool :=
  sfx.data.isSuffixOf s.data

/-- Python `s.startswith(pfx)`, at the character level. -/
def pyStartsWith (s pfx : String) : Bool :=
  pfx.data.isPrefixOf s.data

/-- A Python value fed to `len(...)` when building `Content-Length`:
a `str` (length in characters, as Python `len`) or `bytes` (length in
bytes, used for file contents read in binary mode). -/
inductive Body where
  | text (s : String)
  | bytes (b : List Nat)
deriving DecidableEq

/-- Python `len` of the body. -/
def Body.len : Body → Nat
  | .text s => s.length
  | .bytes b => b.length

/-- An HTTP response as the server assembles it: status line pieces,
headers in emission order, body. -/
structure Response where
  status : Nat
  reason : String
  headers : List (String × String)
  body : Body
deriving DecidableEq

/-- Look a header up by exact name. -/
def getHeader (r : Response) (k : String) : Option String :=
  (r.headers.find? (fun p => p.1 == k)).map (·.2)

/-- Number of occurrences of the exact header pair `(k, v)`. -/
def headerCount (r : Response) (k v : String) : Nat :=
  (r.headers.filter (fun p => p.1 == k && p.2 == v)).length

/-- The `Connection`/`Keep-Alive` header block of `send_error`,
`serve_get_request` and `serve_post_request` (identical in all three). -/
def connectionHeaders (keepAlive : Bool) : List (String × String) :=
  if keepAlive then
    [("Connection", "keep-alive"), ("Keep-Alive", "timeout=30, max=100")]
  else
    [("Connection", "close")]

/-- Model of `send_error` (src/server.py:276-295): formatted HTML error response.
`extraHeaders` models the `extra_headers` dict (used only for the 503
`Retry-After`). -/
def send_error (status : Nat) (msg : String) (keepAlive : Bool)
    (extraHeaders : List (String × String)) : Response :=
  let responseBody :=
    "<html><body><h1>" ++ toString status ++ " " ++ msg ++ "</h1></body></html>"
  { status := status, reason := msg,
    headers := [("Content-Type", "text/html; charset=utf-8"),
                ("Content-Length", toString responseBody.length)]
      ++ extraHeaders
      ++ connectionHeaders keepAlive,
    body := .text responseBody }

/-- The parsed request of src/server.py:112-116: request-line pieces, the
header dict in insertion order with lower-cased names, and the body text. -/
structure ParsedRequest where
  method : String
  path : String
  httpVersion : String
  headers : List (String × String)
  body : String
deriving DecidableEq

/-- Lookup in a Python dict built by a comprehension: later duplicate keys
overwrite earlier ones, so the LAST binding wins. -/
def dictGet (k : String) (l : List (String × String)) : Option String :=
  (l.reverse.find? (fun p => p.1 == k)).map (·.2)

/-- Lines 112-116 of `handle_connection`: split head from body on the first
blank line (`ValueError`, hence `none`, when absent), split the request
line into exactly three space-separated tokens (`ValueError` otherwise),
and build the header dict from the `': '`-bearing lines. -/
def parseRequest (requestData : String) : Option ParsedRequest :=
  match splitOnce "\r\n\r\n".data requestData.data with
  | none => none
  | some (headCs, bodyCs) =>
    let headerLines := pySplitAll "\r\n".data headCs
    match pySplit " ".data 2 (headerLines.headD []) with
    | [m, p, v] =>
      let hdrs := (headerLines.drop 1).filterMap (fun line =>
        match splitOnce ": ".data line with
        | none => none
        | some (k, val) => some (pyLower ⟨k⟩, (⟨val⟩ : String)))
      some ⟨⟨m⟩, ⟨p⟩, ⟨v⟩, hdrs, ⟨bodyCs⟩⟩
    | _ => none

/-- Server configuration: `f"{HOST}:{PORT}"` as compared against the `Host`
header (src/server.py:129). -/
structure Config where
  hostAddr : String
deriving DecidableEq

/-- Per-request environment inputs: the formatted dates from
`time.strftime`, the random suffix from `random.choices`, and whether the
upload write succeeds. -/
structure ReqEnv where
  date : String
  ts : String
  rid : String
  writeOk : Bool

/-- Result of `serve_get_request`, recording whether the Resource Provider
(the `open(filepath, 'rb')` / `f.read()` pair) was invoked. -/
structure GetResult where
  response : Response
  providerInvoked : Bool
deriving DecidableEq

/-- The 200 response of `serve_get_request` (src/server.py:194-213).
`Content-Disposition` is added exactly when the content type is
`application/octet-stream`. -/
def ok200 (content : List Nat) (contentType date filename : String)
    (keepAlive : Bool) : Response :=
  { status := 200, reason := "OK",
    headers := [("Content-Type", contentType),
                ("Content-Length", toString content.length),
                ("Date", date),
                ("Server", "My Python HTTP Server")]
      ++ (if contentType == "application/octet-stream" then
            [("Content-Disposition", "attachment; filename=\"" ++ filename ++ "\"")]
          else [])
      ++ connectionHeaders keepAlive,
    body := .bytes content }

/-- Model of `serve_get_request` (src/server.py:166-217). `fs` is the Resource
Provider: file path to file bytes, `none` for `FileNotFoundError`. -/
def serve_get_request (fs : String → Option (List Nat)) (date : String)
    (path0 : String) (keepAlive : Bool) : GetResult :=
  let path := if path0 = "/" then "/index.html" else path0
  if containsSub ".." path then
    ⟨send_error 403 "Forbidden" false [], false⟩
  else
    let filepath := "resources" ++ path
    let filename : String := ⟨(pySplitAll "/".data path.data).getLastD []⟩
    match fs filepath with
    | none => ⟨send_error 404 "Not Found" false [], true⟩
    | some content =>
      if pyEndsWith filepath ".html" then
        ⟨ok200 content "text/html; charset=utf-8" date filename keepAlive, true⟩
      else if pyEndsWith filepath ".txt" || pyEndsWith filepath ".png"
          || pyEndsWith filepath ".jpg" || pyEndsWith filepath ".jpeg" then
        ⟨ok200 content "application/octet-stream" date filename keepAlive, true⟩
      else
        ⟨send_error 415 "Unsupported Media Type" false [], true⟩

/-- Result of `serve_post_request`; `written` is the disk path handed to
the Resource Provider for persistence, when the write happened. -/
structure PostResult where
  response : Response
  written : Option String
deriving DecidableEq

/-- The filename `f"upload_{timestamp}_{random_id}.json"` (src/server.py:237). -/
def makeUploadFilename (ts rid : String) : String :=
  "upload_" ++ ts ++ "_" ++ rid ++ ".json"

/-- Result of `json.dumps` on the 201 body dict (src/server.py:246-251); Python
dicts preserve insertion order and `dumps` uses `", "`/`": "` separators. -/
def postSuccessBody (fp : String) : String :=
  "\x7b\"status\": \"success\", \"message\": \"File created successfully\", \"filepath\": \""
    ++ fp ++ "\"\x7d"

/-- The 201 response of `serve_post_request` (src/server.py:253-269). -/
def created201 (responseBody date : String) (keepAlive : Bool) : Response :=
  { status := 201, reason := "Created",
    headers := [("Content-Type", "application/json"),
                ("Content-Length", toString responseBody.length),
                ("Date", date),
                ("Server", "My Python HTTP Server")]
      ++ connectionHeaders keepAlive,
    body := .text responseBody }

/-- Model of `serve_post_request` (src/server.py:219-274). `jsonLoads` models
`json.loads` (`none` for `JSONDecodeError`); `env.writeOk` models whether
the file write raises. -/
def serve_post_request {α : Type} (jsonLoads : String → Option α)
    (headers : List (String × String)) (bodyPart : String)
    (env : ReqEnv) (keepAlive : Bool) : PostResult :=
  if !(pyStartsWith ((dictGet "content-type" headers).getD "") "application/json") then
    ⟨send_error 415 "Unsupported Media Type" false [], none⟩
  else
    match jsonLoads bodyPart with
    | none => ⟨send_error 400 "Bad Request" false [], none⟩
    | some _ =>
      let filename := makeUploadFilename env.ts env.rid
      let filepath := "resources/uploads/" ++ filename
      if env.writeOk then
        ⟨created201 (postSuccessBody ("/uploads/" ++ filename)) env.date keepAlive,
          some filepath⟩
      else
        ⟨send_error 500 "Internal Server Error" false [], none⟩

/-- Classification of the responses the per-request pipeline can emit: a
`send_error` with a non-2xx status and no extra headers, a
`serve_get_request` 200, or a `serve_post_request` 201 (the latter two
dated with the current request's clock reading). -/
def RespShape (date : String) (r : Response) : Prop :=
  (∃ st m ka, st ≠ 200 ∧ st ≠ 201 ∧ r = send_error st m ka [])
    ∨ (∃ c ct fn ka, r = ok200 c ct date fn ka)
    ∨ (∃ rb ka, r = created201 rb date ka)

/-- The response of the catch-all `except` branch (src/server.py:154-158). -/
def internalError : Response :=
  send_error 500 "Internal Server Error" false []

/-- The keep-alive negotiation (src/server.py:118-123): HTTP/1.1 unless
the (lower-cased) `Connection` header says `close`; HTTP/1.0 only when it
says `keep-alive`. -/
def decideKeepAlive (httpVersion connectionHeader : String) : Bool :=
  (pyEndsWith httpVersion "/1.1" && connectionHeader != "close")
    || (pyEndsWith httpVersion "/1.0" && connectionHeader == "keep-alive")

/-- Lines 118-126: the negotiated keep-alive, forced off once 100 requests
have been counted on this connection. -/
def effectiveKeepAlive (requestCount : Nat) (httpVersion connectionHeader : String) :
    Bool :=
  if 100 ≤ requestCount then false
  else decideKeepAlive httpVersion connectionHeader

/-- One iteration's request processing (src/server.py:112-149, after the
`request_count` increment): parse, decide keep-alive, validate `Host`,
route.  Returns the single response sent and whether the loop continues
(`should_keep_alive`); a parse `ValueError` falls to the catch-all
`except`, which sends 500 and breaks. -/
def processRequest {α : Type} (cfg : Config) (fs : String → Option (List Nat))
    (jsonLoads : String → Option α) (requestCount : Nat) (requestData : String)
    (env : ReqEnv) : Response × Bool :=
  match parseRequest requestData with
  | none => (internalError, false)
  | some req =>
    let shouldKeepAlive := effectiveKeepAlive requestCount req.httpVersion
      (pyLower ((dictGet "connection" req.headers).getD ""))
    match dictGet "host" req.headers with
    | none => (send_error 400 "Bad Request" shouldKeepAlive [], shouldKeepAlive)
    | some host =>
      if host ≠ cfg.hostAddr then
        (send_error 403 "Forbidden" shouldKeepAlive [], shouldKeepAlive)
      else if req.method = "GET" then
        ((serve_get_request fs env.date req.path shouldKeepAlive).response,
          shouldKeepAlive)
      else if req.method = "POST" then
        ((serve_post_request jsonLoads req.headers req.body env shouldKeepAlive).response,
          shouldKeepAlive)
      else
        (send_error 405 "Method Not Allowed" shouldKeepAlive [], shouldKeepAlive)

/-- One outcome of `client_socket.recv(8192)`: a timeout, or raw bytes
(possibly empty: an empty read means the peer closed). -/
inductive RecvEvent where
  | timeout
  | data (bs : List Nat)
deriving DecidableEq

/-- An observable operation on the client socket. -/
inductive SocketOp where
  | send (r : Response)
  | close
deriving DecidableEq

/-- The buffer size passed to `recv` (src/server.py:105): each loop
iteration performs exactly one read of at most this many bytes. -/
def RECV_BUFSIZE : Nat := 8192

/-- The `while request_count < 100` loop of `handle_connection`
(src/server.py:101-158).  Consumes one recv outcome per iteration;
`decodeUtf8` models `bytes.decode('utf-8')` (`none` for
`UnicodeDecodeError`, which falls to the catch-all `except`).  Returns the
socket operations performed inside the loop and the final
`request_count`.  An exhausted event list models the peer having nothing
further to send. -/
def handleLoop {α : Type} (cfg : Config) (fs : String → Option (List Nat))
    (jsonLoads : String → Option α) (decodeUtf8 : List Nat → Option String) :
    Nat → List (RecvEvent × ReqEnv) → List SocketOp × Nat
  | requestCount, [] => ([], requestCount)
  | requestCount, (ev, env) :: rest =>
    if requestCount < 100 then
      match ev with
      | .timeout => ([], requestCount)
      | .data bs =>
        match decodeUtf8 bs with
        | none => ([.send internalError], requestCount)
        | some requestData =>
          if requestData = "" then ([], requestCount)
          else
            let requestCount' := requestCount + 1
            let pr := processRequest cfg fs jsonLoads requestCount' requestData env
            if pr.2 then
              let next := handleLoop cfg fs jsonLoads decodeUtf8 requestCount' rest
              (.send pr.1 :: next.1, next.2)
            else
              ([.send pr.1], requestCount')
    else ([], requestCount)

/-- Model of `handle_connection` (src/server.py:95-164): run the request loop, then
the `finally` clause closes the client socket on every exit path. -/
def handle_connection {α : Type} (cfg : Config) (fs : String → Option (List Nat))
    (jsonLoads : String → Option α) (decodeUtf8 : List Nat → Option String)
    (events : List (RecvEvent × ReqEnv)) : List SocketOp :=
  (handleLoop cfg fs jsonLoads decodeUtf8 0 events).1 ++ [.close]

/-- Total number of requests counted by `handle_connection` on this event
trace (the final value of `request_count`). -/
def servedRequests {α : Type} (cfg : Config) (fs : String → Option (List Nat))
    (jsonLoads : String → Option α) (decodeUtf8 : List Nat → Option String)
    (events : List (RecvEvent × ReqEnv)) : Nat :=
  (handleLoop cfg fs jsonLoads decodeUtf8 0 events).2

/-- Capacity of `queue.Queue(maxsize=MAX_QUEUE_SIZE)` (src/server.py:16,29). -/
def MAX_QUEUE_SIZE : Nat := 50

/-- The acceptor's enqueue attempt (src/server.py:82-92):
`put_nowait` succeeds exactly when the queue is below capacity; on
`queue.Full` the acceptor sends a 503 with `Retry-After` and closes the
socket.  Returns the socket operations performed and whether the
connection was enqueued. -/
def overloadResponse : Response :=
  send_error 503 "Service Unavailable" false [("Retry-After", "10")]

def acceptConnection (queueLen : Nat) : List SocketOp × Bool :=
  if queueLen < MAX_QUEUE_SIZE then
    ([], true)
  else
    ([.send overloadResponse, .close], false)

/-! ### Concrete fixtures used by witnesses and counterexamples -/

/-- The default configuration: `HOST = '127.0.0.1'`, `PORT = 8080`. -/
def cfg0 : Config := ⟨"127.0.0.1:8080"⟩

/-- A concrete per-request environment. -/
def env0 : ReqEnv :=
  ⟨"Sun, 12 Oct 2025 00:00:00 GMT", "20251012_000000", "ab12", true⟩

/-- A second run in the same clock second drawing the same random suffix. -/
def env0' : ReqEnv :=
  ⟨"Sun, 12 Oct 2025 00:00:00 GMT", "20251012_000000", "ab12", true⟩

/-- An empty file system: every `open` raises `FileNotFoundError`. -/
def noFs : String → Option (List Nat) := fun _ => none

/-- A file system holding only `resources/index.html`. -/
def fsIndex : String → Option (List Nat) := fun p =>
  if p = "resources/index.html" then some [72, 105] else none

/-- A file system holding only `resources/a.exe`. -/
def fsExe : String → Option (List Nat) := fun p =>
  if p = "resources/a.exe" then some [1, 2, 3] else none

/-- A `json.loads` model accepting exactly the body `"{}"`. -/
def jsonFix : String → Option Unit := fun s =>
  if s = "\x7b\x7d" then some () else none

/-- A `decode('utf-8')` model: every byte string decodes to a fixed
malformed request (no request-line third token). -/
def decodeBadLine : List Nat → Option String := fun _ => some "GET /\r\n\r\n"

/-- A `decode('utf-8')` model where every byte string fails to decode. -/
def decodeFail : List Nat → Option String := fun _ => none

/-- A well-formed keep-alive GET for a missing `.txt` file. -/
def reqNope : String :=
  "GET /nope.txt HTTP/1.1\r\nHost: 127.0.0.1:8080\r\n\r\n"

/-- A well-formed keep-alive GET for the default resource. -/
def reqIndex : String :=
  "GET / HTTP/1.1\r\nHost: 127.0.0.1:8080\r\n\r\n"

/-! ### Theorems -/

/-- C10: for every connection passed to the connection handler, the client
socket is closed by the time the handler returns, on every exit path: the
`finally` clause makes the last socket operation a `close` for every event
trace. -/
theorem handle_connection_always_closes {α : Type} (cfg : Config)
    (fs : String → Option (List Nat)) (jsonLoads : String → Option α)
    (decodeUtf8 : List Nat → Option String) (events : List (RecvEvent × ReqEnv)) :
    (handle_connection cfg fs jsonLoads decodeUtf8 events).getLast? = some .close := by
  unfold handle_connection
  rw [List.getLast?_concat]

/-- C3: when the dispatch queue is at capacity the acceptor does not
enqueue: it sends a 503 response with a `Retry-After` header and
`Connection: close` and then closes the socket; below capacity it enqueues
and sends nothing. -/
theorem acceptConnection_spec (queueLen : Nat) :
    (MAX_QUEUE_SIZE ≤ queueLen →
        acceptConnection queueLen = ([.send overloadResponse, .close], false)
          ∧ overloadResponse.status = 503
          ∧ getHeader overloadResponse "Retry-After" = some "10"
          ∧ getHeader overloadResponse "Connection" = some "close")
      ∧ (queueLen < MAX_QUEUE_SIZE → acceptConnection queueLen = ([], true)) := by
  constructor
  · intro h
    refine ⟨?_, by decide, by decide, by decide⟩
    simp [acceptConnection, Nat.not_lt.mpr h]
  · intro h
    simp [acceptConnection, h]

/-- Witness for C3: a full queue (50 waiting) rejects, an empty one
enqueues. -/
theorem acceptConnection_spec_witness :
    acceptConnection 50 = ([.send overloadResponse, .close], false)
      ∧ acceptConnection 0 = ([], true) :=
  ⟨((acceptConnection_spec 50).1 (by decide)).1,
    (acceptConnection_spec 0).2 (by decide)⟩

/-- C4: a GET whose path (after `/` is rewritten to `/index.html`)
contains the substring `..` is answered with 403 and the Resource Provider
is never invoked. -/
theorem serve_get_dotdot_403 (fs : String → Option (List Nat))
    (date path0 : String) (keepAlive : Bool)
    (h : containsSub ".." (if path0 = "/" then "/index.html" else path0) = true) :
    serve_get_request fs date path0 keepAlive
        = ⟨send_error 403 "Forbidden" false [], false⟩
      ∧ (serve_get_request fs date path0 keepAlive).response.status = 403
      ∧ (serve_get_request fs date path0 keepAlive).providerInvoked = false := by
  have he : serve_get_request fs date path0 keepAlive
      = ⟨send_error 403 "Forbidden" false [], false⟩ := by
    unfold serve_get_request
    simp [h]
  exact ⟨he, by rw [he]; rfl, by rw [he]⟩

/-- Witness for C4: a concrete traversal attempt. -/
theorem serve_get_dotdot_403_witness :
    serve_get_request noFs "d" "/../etc/passwd" true
      = ⟨send_error 403 "Forbidden" false [], false⟩ :=
  (serve_get_dotdot_403 noFs "d" "/../etc/passwd" true (by decide)).1

/-- A missing head/body separator makes `parseRequest` fail. -/
theorem parseRequest_none_of_noSep (s : String)
    (h : splitOnce "\r\n\r\n".data s.data = none) : parseRequest s = none := by
  unfold parseRequest
  rw [h]

/-- A read that decodes to a nonempty unparseable string falls to the
catch-all `except`: one 500 is sent and the loop stops, with the remaining
events untouched. -/
theorem handleLoop_500_of_parse_failure {α : Type} (cfg : Config)
    (fs : String → Option (List Nat)) (jsonLoads : String → Option α)
    (decodeUtf8 : List Nat → Option String) (rc : Nat) (env : ReqEnv)
    (rest : List (RecvEvent × ReqEnv)) (bs : List Nat) (s : String)
    (hrc : rc < 100) (hd : decodeUtf8 bs = some s) (hne : s ≠ "")
    (hparse : parseRequest s = none) :
    handleLoop cfg fs jsonLoads decodeUtf8 rc ((.data bs, env) :: rest)
      = ([.send internalError], rc + 1) := by
  have hpr : processRequest cfg fs jsonLoads (rc + 1) s env = (internalError, false) := by
    unfold processRequest; rw [hparse]
  simp [handleLoop, hrc, hd, hne, hpr]

/-- C1 (amended): a received request whose bytes fail to parse is answered
by the catch-all handler with status 500 (not 400), the loop breaks
without consuming further reads, and the connection is closed. -/
theorem parse_failure_500 {α : Type} (cfg : Config)
    (fs : String → Option (List Nat)) (jsonLoads : String → Option α)
    (decodeUtf8 : List Nat → Option String) (rc : Nat) (env : ReqEnv)
    (rest : List (RecvEvent × ReqEnv)) (bs : List Nat) (s : String)
    (hrc : rc < 100) (hd : decodeUtf8 bs = some s) (hne : s ≠ "")
    (hparse : parseRequest s = none) :
    handleLoop cfg fs jsonLoads decodeUtf8 rc ((.data bs, env) :: rest)
        = ([.send internalError], rc + 1)
      ∧ handle_connection cfg fs jsonLoads decodeUtf8 ((.data bs, env) :: rest)
        = [.send internalError, .close]
      ∧ internalError.status = 500
      ∧ getHeader internalError "Connection" = some "close" := by
  refine ⟨handleLoop_500_of_parse_failure cfg fs jsonLoads decodeUtf8 rc env rest bs s
      hrc hd hne hparse, ?_, by decide, by decide⟩
  unfold handle_connection
  rw [handleLoop_500_of_parse_failure cfg fs jsonLoads decodeUtf8 0 env rest bs s
      (by decide) hd hne hparse]
  rfl

/-- Witness for C1 (amended): undecodable-level fixture delivering the
two-token request line. -/
theorem parse_failure_500_witness :
    handle_connection cfg0 noFs jsonFix decodeBadLine [(.data [], env0)]
      = [.send internalError, .close] :=
  (parse_failure_500 cfg0 noFs jsonFix decodeBadLine 0 env0 [] []
    "GET /\r\n\r\n" (by decide) rfl (by decide) (by decide)).2.1

/-- C1 counterexample: the request `GET /` followed by the blank line — a
request line with fewer than three space-separated tokens — is answered
with status 500, not 400 as the claim states. -/
theorem parse_failure_not_400 :
    parseRequest "GET /\r\n\r\n" = none
      ∧ (processRequest cfg0 noFs jsonFix 1 "GET /\r\n\r\n" env0).1.status = 500
      ∧ ¬(processRequest cfg0 noFs jsonFix 1 "GET /\r\n\r\n" env0).1.status = 400 := by
  decide

/-- C9: each loop iteration performs exactly one `recv` of at most
`RECV_BUFSIZE = 8192` bytes and treats those bytes as the complete
request: a read that does not decode as UTF-8, or decodes to a nonempty
string lacking the head/body separator, is never combined with later
reads — the handler sends a single 500 and stops, so the remaining events
are irrelevant. -/
theorem single_read_is_whole_request {α : Type} (cfg : Config)
    (fs : String → Option (List Nat)) (jsonLoads : String → Option α)
    (decodeUtf8 : List Nat → Option String) (rc : Nat) (env : ReqEnv)
    (rest : List (RecvEvent × ReqEnv)) (bs : List Nat)
    (_hsize : bs.length ≤ RECV_BUFSIZE) (hrc : rc < 100)
    (hbad : decodeUtf8 bs = none
      ∨ ∃ s, decodeUtf8 bs = some s ∧ s ≠ ""
          ∧ splitOnce "\r\n\r\n".data s.data = none) :
    (handleLoop cfg fs jsonLoads decodeUtf8 rc ((.data bs, env) :: rest)).1
        = [.send internalError]
      ∧ handleLoop cfg fs jsonLoads decodeUtf8 rc ((.data bs, env) :: rest)
        = handleLoop cfg fs jsonLoads decodeUtf8 rc [(.data bs, env)]
      ∧ internalError.status = 500 := by
  rcases hbad with hd | ⟨s, hd, hne, hsep⟩
  · refine ⟨?_, ?_, by decide⟩ <;> simp [handleLoop, hrc, hd]
  · have hparse := parseRequest_none_of_noSep s hsep
    have h1 := handleLoop_500_of_parse_failure cfg fs jsonLoads decodeUtf8 rc env rest
      bs s hrc hd hne hparse
    have h2 := handleLoop_500_of_parse_failure cfg fs jsonLoads decodeUtf8 rc env []
      bs s hrc hd hne hparse
    exact ⟨by rw [h1], by rw [h1, h2], by decide⟩

/-- Witness for C9: a one-byte read that fails UTF-8 decoding, followed by
an event that is provably never reached. -/
theorem single_read_is_whole_request_witness :
    (handleLoop cfg0 noFs jsonFix decodeFail 0
        [(.data [255], env0), (.timeout, env0)]).1 = [.send internalError] :=
  (single_read_is_whole_request cfg0 noFs jsonFix decodeFail 0 env0
    [(.timeout, env0)] [255] (by decide) (by decide) (Or.inl rfl)).1

theorem send_error_status (st : Nat) (m : String) (ka : Bool)
    (extra : List (String × String)) : (send_error st m ka extra).status = st := rfl

theorem ok200_status (c : List Nat) (ct date fn : String) (ka : Bool) :
    (ok200 c ct date fn ka).status = 200 := rfl

theorem created201_status (rb date : String) (ka : Bool) :
    (created201 rb date ka).status = 201 := rfl

/-- Header facts for `send_error` without extra headers: `Content-Type`
present, `Content-Length` equal to the body length, the `Connection`
variant dictated by `keep_alive` and nothing else, and no `Date` or
`Server` header. -/
theorem send_error_headers (st : Nat) (m : String) (ka : Bool) :
    (getHeader (send_error st m ka []) "Content-Type").isSome = true
      ∧ getHeader (send_error st m ka []) "Content-Length"
        = some (toString (send_error st m ka []).body.len)
      ∧ headerCount (send_error st m ka []) "Connection" "close"
        = (if ka then 0 else 1)
      ∧ headerCount (send_error st m ka []) "Connection" "keep-alive"
        = (if ka then 1 else 0)
      ∧ getHeader (send_error st m ka []) "Date" = none
      ∧ getHeader (send_error st m ka []) "Server" = none := by
  unfold getHeader headerCount send_error connectionHeaders
  cases ka <;> simp [List.find?, List.filter, Body.len]

/-- Header facts for the 200 response of `serve_get_request`. -/
theorem ok200_headers (c : List Nat) (ct date fn : String) (ka : Bool) :
    (getHeader (ok200 c ct date fn ka) "Content-Type").isSome = true
      ∧ getHeader (ok200 c ct date fn ka) "Content-Length"
        = some (toString (ok200 c ct date fn ka).body.len)
      ∧ headerCount (ok200 c ct date fn ka) "Connection" "close"
        = (if ka then 0 else 1)
      ∧ headerCount (ok200 c ct date fn ka) "Connection" "keep-alive"
        = (if ka then 1 else 0)
      ∧ getHeader (ok200 c ct date fn ka) "Date" = some date
      ∧ getHeader (ok200 c ct date fn ka) "Server" = some "My Python HTTP Server" := by
  unfold getHeader headerCount ok200 connectionHeaders
  cases ka <;> cases hct : (ct == "application/octet-stream") <;>
    simp [hct, List.find?, List.filter, Body.len]

/-- Header facts for the 201 response of `serve_post_request`. -/
theorem created201_headers (rb date : String) (ka : Bool) :
    (getHeader (created201 rb date ka) "Content-Type").isSome = true
      ∧ getHeader (created201 rb date ka) "Content-Length"
        = some (toString (created201 rb date ka).body.len)
      ∧ headerCount (created201 rb date ka) "Connection" "close"
        = (if ka then 0 else 1)
      ∧ headerCount (created201 rb date ka) "Connection" "keep-alive"
        = (if ka then 1 else 0)
      ∧ getHeader (created201 rb date ka) "Date" = some date
      ∧ getHeader (created201 rb date ka) "Server" = some "My Python HTTP Server" := by
  unfold getHeader headerCount created201 connectionHeaders
  cases ka <;> simp [List.find?, List.filter, Body.len]

/-- Every response of `serve_get_request` is a `send_error` 403/404/415
with `keep_alive=False`, or the 200 built with the caller's flag. -/
theorem serve_get_cases (fs : String → Option (List Nat)) (date path0 : String)
    (ka : Bool) :
    (∃ st m, (st = 403 ∨ st = 404 ∨ st = 415)
        ∧ (serve_get_request fs date path0 ka).response = send_error st m false [])
      ∨ (∃ c ct fn, (serve_get_request fs date path0 ka).response
          = ok200 c ct date fn ka) := by
  unfold serve_get_request
  dsimp only
  repeat' split
  all_goals first
    | exact Or.inl ⟨403, _, Or.inl rfl, rfl⟩
    | exact Or.inl ⟨404, _, Or.inr (Or.inl rfl), rfl⟩
    | exact Or.inl ⟨415, _, Or.inr (Or.inr rfl), rfl⟩
    | exact Or.inr ⟨_, _, _, rfl⟩

/-- Every response of `serve_post_request` is a `send_error` 415/400/500
with `keep_alive=False`, or the 201 built with the caller's flag. -/
theorem serve_post_cases {α : Type} (jsonLoads : String → Option α)
    (hdrs : List (String × String)) (body : String) (env : ReqEnv) (ka : Bool) :
    (∃ st m, (st = 415 ∨ st = 400 ∨ st = 500)
        ∧ (serve_post_request jsonLoads hdrs body env ka).response
          = send_error st m false [])
      ∨ (∃ rb, (serve_post_request jsonLoads hdrs body env ka).response
          = created201 rb env.date ka) := by
  unfold serve_post_request
  dsimp only
  repeat' split
  all_goals first
    | exact Or.inl ⟨415, _, Or.inl rfl, rfl⟩
    | exact Or.inl ⟨400, _, Or.inr (Or.inl rfl), rfl⟩
    | exact Or.inl ⟨500, _, Or.inr (Or.inr rfl), rfl⟩
    | exact Or.inr ⟨_, rfl⟩

set_option maxHeartbeats 1600000 in
/-- Every response `processRequest` emits matches `RespShape`. -/
theorem processRequest_shape {α : Type} (cfg : Config)
    (fs : String → Option (List Nat)) (jsonLoads : String → Option α)
    (rc : Nat) (s : String) (env : ReqEnv) :
    RespShape env.date (processRequest cfg fs jsonLoads rc s env).1 := by
  unfold RespShape processRequest
  cases hp : parseRequest s with
  | none => exact Or.inl ⟨500, _, false, by decide, by decide, rfl⟩
  | some req =>
    dsimp only
    split
    · exact Or.inl ⟨400, _, _, by decide, by decide, rfl⟩
    · split
      · exact Or.inl ⟨403, _, _, by decide, by decide, rfl⟩
      · split
        · dsimp only
          rcases serve_get_cases fs env.date req.path
              (effectiveKeepAlive rc req.httpVersion
                (pyLower ((dictGet "connection" req.headers).getD "")))
              with ⟨st, m, hst, he⟩ | ⟨c, ct, fn, he⟩
          · rw [he]
            refine Or.inl ⟨st, m, false, ?_, ?_, rfl⟩ <;>
              rcases hst with h | h | h <;> omega
          · rw [he]
            exact Or.inr (Or.inl ⟨c, ct, fn, _, rfl⟩)
        · split
          · dsimp only
            rcases serve_post_cases jsonLoads req.headers req.body env
                (effectiveKeepAlive rc req.httpVersion
                  (pyLower ((dictGet "connection" req.headers).getD "")))
                with ⟨st, m, hst, he⟩ | ⟨rb, he⟩
            · rw [he]
              refine Or.inl ⟨st, m, false, ?_, ?_, rfl⟩ <;>
                rcases hst with h | h | h <;> omega
            · rw [he]
              exact Or.inr (Or.inr ⟨rb, _, rfl⟩)
          · exact Or.inl ⟨405, _, _, by decide, by decide, rfl⟩

/-- Past the request cap the negotiated keep-alive is overridden. -/
theorem effectiveKeepAlive_cap (rc : Nat) (v ch : String) (hrc : 100 ≤ rc) :
    effectiveKeepAlive rc v ch = false := by
  unfold effectiveKeepAlive
  rw [if_pos hrc]

/-- Below the cap, HTTP/1.1 without `Connection: close` keeps alive. -/
theorem effectiveKeepAlive_eq_true (rc : Nat) (v ch : String)
    (hrc : rc < 100) (hver : pyEndsWith v "/1.1" = true)
    (hconn : (ch == "close") = false) :
    effectiveKeepAlive rc v ch = true := by
  unfold effectiveKeepAlive decideKeepAlive
  rw [if_neg (by omega)]
  simp [hver, hconn, bne]

theorem send_error_close_counts (st : Nat) (m : String) :
    headerCount (send_error st m false []) "Connection" "close" = 1
      ∧ headerCount (send_error st m false []) "Connection" "keep-alive" = 0 := by
  obtain ⟨-, -, h3, h4, -, -⟩ := send_error_headers st m false
  exact ⟨by simpa using h3, by simpa using h4⟩

theorem send_error_ka_counts (st : Nat) (m : String) :
    headerCount (send_error st m true []) "Connection" "keep-alive" = 1
      ∧ headerCount (send_error st m true []) "Connection" "close" = 0 := by
  obtain ⟨-, -, h3, h4, -, -⟩ := send_error_headers st m true
  exact ⟨by simpa using h4, by simpa using h3⟩

theorem ok200_close_counts (c : List Nat) (ct date fn : String) :
    headerCount (ok200 c ct date fn false) "Connection" "close" = 1
      ∧ headerCount (ok200 c ct date fn false) "Connection" "keep-alive" = 0 := by
  obtain ⟨-, -, h3, h4, -, -⟩ := ok200_headers c ct date fn false
  exact ⟨by simpa using h3, by simpa using h4⟩

theorem ok200_ka_counts (c : List Nat) (ct date fn : String) :
    headerCount (ok200 c ct date fn true) "Connection" "keep-alive" = 1
      ∧ headerCount (ok200 c ct date fn true) "Connection" "close" = 0 := by
  obtain ⟨-, -, h3, h4, -, -⟩ := ok200_headers c ct date fn true
  exact ⟨by simpa using h4, by simpa using h3⟩

theorem created201_close_counts (rb date : String) :
    headerCount (created201 rb date false) "Connection" "close" = 1
      ∧ headerCount (created201 rb date false) "Connection" "keep-alive" = 0 := by
  obtain ⟨-, -, h3, h4, -, -⟩ := created201_headers rb date false
  exact ⟨by simpa using h3, by simpa using h4⟩

theorem created201_ka_counts (rb date : String) :
    headerCount (created201 rb date true) "Connection" "keep-alive" = 1
      ∧ headerCount (created201 rb date true) "Connection" "close" = 0 := by
  obtain ⟨-, -, h3, h4, -, -⟩ := created201_headers rb date true
  exact ⟨by simpa using h4, by simpa using h3⟩

/-- C7 (amended): every response the per-request pipeline emits carries a
`Content-Type`, a `Content-Length` equal to the body length, and exactly
one `Connection` variant; the success responses (200/201) also carry
`Date` and `Server`; the dispatcher's 503 carries `Content-Type`, a
correct `Content-Length` and one `Connection` variant but — like every
`send_error` response — no `Date` header. -/
theorem response_headers_complete {α : Type} (cfg : Config)
    (fs : String → Option (List Nat)) (jsonLoads : String → Option α)
    (rc : Nat) (s : String) (env : ReqEnv) :
    (getHeader (processRequest cfg fs jsonLoads rc s env).1 "Content-Type").isSome
        = true
      ∧ getHeader (processRequest cfg fs jsonLoads rc s env).1 "Content-Length"
        = some (toString (processRequest cfg fs jsonLoads rc s env).1.body.len)
      ∧ headerCount (processRequest cfg fs jsonLoads rc s env).1 "Connection" "close"
          + headerCount (processRequest cfg fs jsonLoads rc s env).1 "Connection"
              "keep-alive"
        = 1
      ∧ (((processRequest cfg fs jsonLoads rc s env).1.status = 200
            ∨ (processRequest cfg fs jsonLoads rc s env).1.status = 201) →
          getHeader (processRequest cfg fs jsonLoads rc s env).1 "Date" = some env.date
            ∧ getHeader (processRequest cfg fs jsonLoads rc s env).1 "Server"
              = some "My Python HTTP Server")
      ∧ headerCount overloadResponse "Connection" "close"
          + headerCount overloadResponse "Connection" "keep-alive" = 1
      ∧ (getHeader overloadResponse "Content-Type").isSome = true
      ∧ getHeader overloadResponse "Content-Length"
        = some (toString overloadResponse.body.len)
      ∧ getHeader overloadResponse "Date" = none := by
  rcases processRequest_shape cfg fs jsonLoads rc s env with
      ⟨st, m, ka, h200, h201, he⟩ | ⟨c, ct, fn, ka, he⟩ | ⟨rb, ka, he⟩ <;> rw [he]
  · obtain ⟨h1, h2, h3, h4, -, -⟩ := send_error_headers st m ka
    refine ⟨h1, h2, ?_, ?_, by decide, by decide, by decide, by decide⟩
    · rw [h3, h4]; cases ka <;> rfl
    · intro h
      rcases h with h | h <;> rw [send_error_status] at h
      · exact absurd h h200
      · exact absurd h h201
  · obtain ⟨h1, h2, h3, h4, h5, h6⟩ := ok200_headers c ct env.date fn ka
    refine ⟨h1, h2, ?_, fun _ => ⟨h5, h6⟩, by decide, by decide, by decide, by decide⟩
    rw [h3, h4]; cases ka <;> rfl
  · obtain ⟨h1, h2, h3, h4, h5, h6⟩ := created201_headers rb env.date ka
    refine ⟨h1, h2, ?_, fun _ => ⟨h5, h6⟩, by decide, by decide, by decide, by decide⟩
    rw [h3, h4]; cases ka <;> rfl

/-- Witness for C7 (amended): a concrete 200 carries the request's date. -/
theorem response_headers_complete_witness :
    getHeader (processRequest cfg0 fsIndex jsonFix 1 reqIndex env0).1 "Date"
      = some env0.date :=
  ((response_headers_complete cfg0 fsIndex jsonFix 1 reqIndex env0).2.2.2.1
    (Or.inl (by decide))).1

/-- C7 counterexample: the 404 actually sent for a well-formed GET of a
missing file — like every `send_error` response, the dispatcher's 503
included — carries neither a `Date` nor a `Server` header, contradicting
the claim that every response carries both. -/
theorem error_response_lacks_date :
    (processRequest cfg0 noFs jsonFix 1 reqNope env0).1
        = send_error 404 "Not Found" false []
      ∧ getHeader (send_error 404 "Not Found" false []) "Date" = none
      ∧ getHeader (send_error 404 "Not Found" false []) "Server" = none
      ∧ getHeader overloadResponse "Date" = none
      ∧ getHeader overloadResponse "Server" = none := by decide

/-- C5 (amended): for a parsed HTTP/1.1 request whose lower-cased
`Connection` header is not `close`, below the 100-request cap, the
keep-alive flag is set: any success response (200 or 201) carries exactly
one `Connection: keep-alive` and no `Connection: close`; but a 404 from
the file handler is sent with `Connection: close` (the handler forces
`keep_alive=False` on its error responses). -/
theorem keepalive_success_responses {α : Type} (cfg : Config)
    (fs : String → Option (List Nat)) (jsonLoads : String → Option α)
    (rc : Nat) (s : String) (env : ReqEnv) (req : ParsedRequest)
    (hparse : parseRequest s = some req)
    (hver : pyEndsWith req.httpVersion "/1.1" = true)
    (hconn : (pyLower ((dictGet "connection" req.headers).getD "") == "close") = false)
    (hrc : rc < 100) :
    (((processRequest cfg fs jsonLoads rc s env).1.status = 200
        ∨ (processRequest cfg fs jsonLoads rc s env).1.status = 201) →
      headerCount (processRequest cfg fs jsonLoads rc s env).1 "Connection"
            "keep-alive" = 1
        ∧ headerCount (processRequest cfg fs jsonLoads rc s env).1 "Connection"
            "close" = 0)
      ∧ ((processRequest cfg fs jsonLoads rc s env).1.status = 404 →
        headerCount (processRequest cfg fs jsonLoads rc s env).1 "Connection"
              "close" = 1
          ∧ headerCount (processRequest cfg fs jsonLoads rc s env).1 "Connection"
              "keep-alive" = 0) := by
  have hka : effectiveKeepAlive rc req.httpVersion
      (pyLower ((dictGet "connection" req.headers).getD "")) = true :=
    effectiveKeepAlive_eq_true rc _ _ hrc hver hconn
  unfold processRequest
  rw [hparse]
  dsimp only
  rw [hka]
  split
  · constructor <;> intro h
    · rcases h with h | h <;> rw [send_error_status] at h <;> omega
    · rw [send_error_status] at h; omega
  · split
    · constructor <;> intro h
      · rcases h with h | h <;> rw [send_error_status] at h <;> omega
      · rw [send_error_status] at h; omega
    · split
      · dsimp only
        rcases serve_get_cases fs env.date req.path true
            with ⟨st, m, hst, he⟩ | ⟨c, ct, fn, he⟩
        · rw [he]
          constructor <;> intro h
          · rw [send_error_status] at h
            rcases hst with h' | h' | h' <;> rcases h with h | h <;> omega
          · exact send_error_close_counts st m
        · rw [he]
          exact ⟨fun _ => ok200_ka_counts c ct env.date fn,
            fun h => by rw [ok200_status] at h; omega⟩
      · split
        · dsimp only
          rcases serve_post_cases jsonLoads req.headers req.body env true
              with ⟨st, m, hst, he⟩ | ⟨rb, he⟩
          · rw [he]
            constructor <;> intro h
            · rw [send_error_status] at h
              rcases hst with h' | h' | h' <;> rcases h with h | h <;> omega
            · exact send_error_close_counts st m
          · rw [he]
            exact ⟨fun _ => created201_ka_counts rb env.date,
              fun h => by rw [created201_status] at h; omega⟩
        · constructor <;> intro h
          · rcases h with h | h <;> rw [send_error_status] at h <;> omega
          · rw [send_error_status] at h; omega

/-- Witness for C5 (amended): a concrete keep-alive GET of an existing
file receives its 200 with `Connection: keep-alive`. -/
theorem keepalive_success_responses_witness :
    headerCount (processRequest cfg0 fsIndex jsonFix 1 reqIndex env0).1
      "Connection" "keep-alive" = 1 :=
  ((keepalive_success_responses cfg0 fsIndex jsonFix 1 reqIndex env0
      ⟨"GET", "/", "HTTP/1.1", [("host", "127.0.0.1:8080")], ""⟩
      (by decide) (by decide) (by decide) (by decide)).1 (Or.inl (by decide))).1

/-- C5 counterexample: a valid HTTP/1.1 request with no `Connection`
header whose file is missing gets its 404 with `Connection: close` and no
`Connection: keep-alive` header, contradicting the claim that every such
request's response carries `Connection: keep-alive`. -/
theorem keepalive_404_counterexample :
    ((parseRequest reqNope).map fun r =>
        (r.httpVersion, dictGet "connection" r.headers))
      = some ("HTTP/1.1", none)
      ∧ (processRequest cfg0 noFs jsonFix 1 reqNope env0).1.status = 404
      ∧ headerCount (processRequest cfg0 noFs jsonFix 1 reqNope env0).1
          "Connection" "keep-alive" = 0
      ∧ getHeader (processRequest cfg0 noFs jsonFix 1 reqNope env0).1 "Connection"
        = some "close" := by decide

/-- C6 (amended): for a GET whose rewritten path contains no `..` and has
none of the five recognised extensions, the extension check runs only
after the Resource Provider has been invoked: when the file exists the
response is a 415 with the provider invoked; when it does not exist the
response is a 404 (not 415), equally after invoking the provider. -/
theorem unsupported_ext_after_provider (fs : String → Option (List Nat))
    (date path0 : String) (ka : Bool)
    (hdots : containsSub ".." (if path0 = "/" then "/index.html" else path0) = false)
    (hhtml : pyEndsWith ("resources" ++ (if path0 = "/" then "/index.html" else path0))
      ".html" = false)
    (htxt : pyEndsWith ("resources" ++ (if path0 = "/" then "/index.html" else path0))
      ".txt" = false)
    (hpng : pyEndsWith ("resources" ++ (if path0 = "/" then "/index.html" else path0))
      ".png" = false)
    (hjpg : pyEndsWith ("resources" ++ (if path0 = "/" then "/index.html" else path0))
      ".jpg" = false)
    (hjpeg : pyEndsWith ("resources" ++ (if path0 = "/" then "/index.html" else path0))
      ".jpeg" = false) :
    ((fs ("resources" ++ (if path0 = "/" then "/index.html" else path0))).isSome = true →
        serve_get_request fs date path0 ka
          = ⟨send_error 415 "Unsupported Media Type" false [], true⟩)
      ∧ (fs ("resources" ++ (if path0 = "/" then "/index.html" else path0)) = none →
        serve_get_request fs date path0 ka
          = ⟨send_error 404 "Not Found" false [], true⟩) := by
  constructor
  · intro hsome
    obtain ⟨c, hc⟩ := Option.isSome_iff_exists.mp hsome
    unfold serve_get_request
    simp [hdots, hc, hhtml, htxt, hpng, hjpg, hjpeg]
  · intro hnone
    unfold serve_get_request
    simp [hdots, hnone]

/-- Witness for C6 (amended): a GET for an existing `.exe` file. -/
theorem unsupported_ext_after_provider_witness :
    serve_get_request fsExe "d" "/a.exe" true
      = ⟨send_error 415 "Unsupported Media Type" false [], true⟩ :=
  (unsupported_ext_after_provider fsExe "d" "/a.exe" true (by decide) (by decide)
    (by decide) (by decide) (by decide) (by decide)).1 (by decide)

/-- C6 counterexample: a GET for an existing file with a disallowed
extension does return 415, but only after invoking the Resource Provider
(`providerInvoked = true`), contradicting the claim that the provider is
never invoked; and when the file is absent the response is 404, not 415. -/
theorem unsupported_ext_invokes_provider :
    (serve_get_request fsExe "d" "/a.exe" true).response.status = 415
      ∧ (serve_get_request fsExe "d" "/a.exe" true).providerInvoked = true
      ∧ (serve_get_request noFs "d" "/a.exe" true).response.status = 404 := by decide

/-- At or past the cap, processing forces non-keep-alive: the loop flag is
`false` and the single response carries `Connection: close`. -/
theorem processRequest_cap {α : Type} (cfg : Config)
    (fs : String → Option (List Nat)) (jsonLoads : String → Option α)
    (rc : Nat) (s : String) (env : ReqEnv) (hrc : 100 ≤ rc) :
    (processRequest cfg fs jsonLoads rc s env).2 = false
      ∧ headerCount (processRequest cfg fs jsonLoads rc s env).1 "Connection"
          "close" = 1
      ∧ headerCount (processRequest cfg fs jsonLoads rc s env).1 "Connection"
          "keep-alive" = 0 := by
  unfold processRequest
  cases hp : parseRequest s with
  | none =>
    exact ⟨rfl, (send_error_close_counts 500 "Internal Server Error").1,
      (send_error_close_counts 500 "Internal Server Error").2⟩
  | some req =>
    dsimp only
    rw [effectiveKeepAlive_cap rc _ _ hrc]
    split
    · exact ⟨rfl, send_error_close_counts 400 _⟩
    · split
      · exact ⟨rfl, send_error_close_counts 403 _⟩
      · split
        · dsimp only
          rcases serve_get_cases fs env.date req.path false
              with ⟨st, m, _, he⟩ | ⟨c, ct, fn, he⟩
          · rw [he]; exact ⟨rfl, send_error_close_counts st m⟩
          · rw [he]; exact ⟨rfl, ok200_close_counts c ct env.date fn⟩
        · split
          · dsimp only
            rcases serve_post_cases jsonLoads req.headers req.body env false
                with ⟨st, m, _, he⟩ | ⟨rb, he⟩
            · rw [he]; exact ⟨rfl, send_error_close_counts st m⟩
            · rw [he]; exact ⟨rfl, created201_close_counts rb env.date⟩
          · exact ⟨rfl, send_error_close_counts 405 _⟩

/-- The final `request_count` never exceeds 100. -/
theorem handleLoop_count_le {α : Type} (cfg : Config)
    (fs : String → Option (List Nat)) (jsonLoads : String → Option α)
    (decodeUtf8 : List Nat → Option String) :
    ∀ (events : List (RecvEvent × ReqEnv)) (rc : Nat), rc ≤ 100 →
      (handleLoop cfg fs jsonLoads decodeUtf8 rc events).2 ≤ 100 := by
  intro events
  induction events with
  | nil => intro rc h; simpa [handleLoop] using h
  | cons e rest ih =>
    intro rc h
    obtain ⟨ev, env⟩ := e
    by_cases hlt : rc < 100
    · cases ev with
      | timeout => simpa [handleLoop, hlt] using h
      | data bs =>
        cases hdec : decodeUtf8 bs with
        | none => simpa [handleLoop, hlt, hdec] using h
        | some s =>
          by_cases hs : s = ""
          · simpa [handleLoop, hlt, hdec, hs] using h
          · cases hcont : (processRequest cfg fs jsonLoads (rc + 1) s env).2
            · simp [handleLoop, hlt, hdec, hs, hcont]
              omega
            · have := ih (rc + 1) hlt
              simpa [handleLoop, hlt, hdec, hs, hcont] using this
    · simpa [handleLoop, hlt] using h

/-- C2: at most 100 requests are ever counted on one connection, and the
request processed at the cap (the 100th) is handled with the keep-alive
flag forced off: its response carries exactly one `Connection: close`, no
`Connection: keep-alive`, and the loop stops — so no 101st request is ever
read, and the cap applies regardless of the request's headers. -/
theorem connection_request_cap {α : Type} (cfg : Config)
    (fs : String → Option (List Nat)) (jsonLoads : String → Option α)
    (decodeUtf8 : List Nat → Option String) (events : List (RecvEvent × ReqEnv))
    (rc : Nat) (s : String) (env : ReqEnv) (hrc : 100 ≤ rc) :
    servedRequests cfg fs jsonLoads decodeUtf8 events ≤ 100
      ∧ (processRequest cfg fs jsonLoads rc s env).2 = false
      ∧ headerCount (processRequest cfg fs jsonLoads rc s env).1 "Connection"
          "close" = 1
      ∧ headerCount (processRequest cfg fs jsonLoads rc s env).1 "Connection"
          "keep-alive" = 0 :=
  ⟨handleLoop_count_le cfg fs jsonLoads decodeUtf8 events 0 (by omega),
    processRequest_cap cfg fs jsonLoads rc s env hrc⟩

/-- Witness for C2: the 100th request on a connection (here a well-formed
keep-alive GET) is still answered with `Connection: close`. -/
theorem connection_request_cap_witness :
    servedRequests cfg0 fsIndex jsonFix decodeBadLine [] ≤ 100
      ∧ (processRequest cfg0 fsIndex jsonFix 100 reqIndex env0).2 = false
      ∧ headerCount (processRequest cfg0 fsIndex jsonFix 100 reqIndex env0).1
          "Connection" "close" = 1 :=
  ⟨(connection_request_cap cfg0 fsIndex jsonFix decodeBadLine [] 100 reqIndex env0
      (by decide)).1,
    (connection_request_cap cfg0 fsIndex jsonFix decodeBadLine [] 100 reqIndex env0
      (by decide)).2.1,
    (connection_request_cap cfg0 fsIndex jsonFix decodeBadLine [] 100 reqIndex env0
      (by decide)).2.2.1⟩

/-- Two generated upload filenames coincide exactly when both the
timestamp and the random suffix coincide (for equal-length timestamps,
which `%Y%m%d_%H%M%S` always produces). -/
theorem makeUploadFilename_inj (ts1 ts2 rid1 rid2 : String)
    (hlen : ts1.length = ts2.length) :
    makeUploadFilename ts1 rid1 = makeUploadFilename ts2 rid2
      ↔ ts1 = ts2 ∧ rid1 = rid2 := by
  constructor
  · intro h
    unfold makeUploadFilename at h
    have hdata := congrArg String.data h
    simp only [String.data_append, List.append_assoc] at hdata
    have h1 := List.append_cancel_left hdata
    obtain ⟨hts, h2⟩ := List.append_inj h1 hlen
    have h3 := List.append_cancel_left h2
    have hrid := List.append_cancel_right h3
    exact ⟨String.ext hts, String.ext hrid⟩
  · rintro ⟨rfl, rfl⟩
    rfl

/-- C8 (amended): a POST with JSON content type, a body the JSON parser
accepts, and a successful write returns 201 with a body carrying the
`filepath` field `/uploads/upload_<ts>_<rid>.json`; across two such runs
the `filepath` values differ exactly when the (timestamp, random-suffix)
pairs differ — they are NOT always different: a second run in the same
clock second drawing the same suffix reuses the identifier. -/
theorem upload_filepath_unique {α : Type} (jsonLoads : String → Option α)
    (hdrs : List (String × String)) (body : String) (env1 env2 : ReqEnv)
    (ka : Bool)
    (hct : pyStartsWith ((dictGet "content-type" hdrs).getD "")
      "application/json" = true)
    (hjson : (jsonLoads body).isSome = true)
    (hw1 : env1.writeOk = true) (hw2 : env2.writeOk = true)
    (hts : env1.ts.length = env2.ts.length) :
    (serve_post_request jsonLoads hdrs body env1 ka).response.status = 201
      ∧ (serve_post_request jsonLoads hdrs body env1 ka).response.body
        = .text (postSuccessBody
            ("/uploads/" ++ makeUploadFilename env1.ts env1.rid))
      ∧ (serve_post_request jsonLoads hdrs body env1 ka).written
        = some ("resources/uploads/" ++ makeUploadFilename env1.ts env1.rid)
      ∧ (serve_post_request jsonLoads hdrs body env2 ka).written
        = some ("resources/uploads/" ++ makeUploadFilename env2.ts env2.rid)
      ∧ (makeUploadFilename env1.ts env1.rid = makeUploadFilename env2.ts env2.rid
          ↔ env1.ts = env2.ts ∧ env1.rid = env2.rid) := by
  obtain ⟨v, hv⟩ := Option.isSome_iff_exists.mp hjson
  refine ⟨?_, ?_, ?_, ?_, makeUploadFilename_inj env1.ts env2.ts env1.rid env2.rid hts⟩
    <;> unfold serve_post_request <;> simp [hct, hv, hw1, hw2, created201]

/-- Witness for C8 (amended): a concrete accepted upload. -/
theorem upload_filepath_unique_witness :
    (serve_post_request jsonFix [("content-type", "application/json")] "\x7b\x7d"
      env0 true).response.status = 201 :=
  (upload_filepath_unique jsonFix [("content-type", "application/json")] "\x7b\x7d"
    env0 env0' true (by decide) (by decide) (by decide) (by decide) (by decide)).1

/-- C8 counterexample: two successful POSTs of the same valid JSON body
whose environments share the clock second and the random suffix generate
the SAME `filepath`, contradicting the claim that the generated
identifiers are never equal across two runs. -/
theorem upload_same_second_same_suffix_collides :
    (serve_post_request jsonFix [("content-type", "application/json")] "\x7b\x7d"
        env0 true).response.status = 201
      ∧ (serve_post_request jsonFix [("content-type", "application/json")] "\x7b\x7d"
          env0' true).response.status = 201
      ∧ (serve_post_request jsonFix [("content-type", "application/json")] "\x7b\x7d"
            env0 true).written
        = (serve_post_request jsonFix [("content-type", "application/json")] "\x7b\x7d"
            env0' true).written
      ∧ (serve_post_request jsonFix [("content-type", "application/json")] "\x7b\x7d"
            env0 true).written
        = some "resources/uploads/upload_20251012_000000_ab12.json" := by decide

end Server
